import Mathlib

/-!
Verification of the reconciliation core of a Terraform provider for Azure Stack.

This file gives a shallow embedding of:
* the soft-delete / purge state machine for key-vault nested items
  (`deleteAndOptionallyPurge` in the `azurestack` package);
* the resource-identifier codec (`SubnetId.ID`, `ParseSubnetID`,
  `subnetIDInsensitively`);
* the read-cycle not-found handling (`resourceArmSubnetRead`,
  `resourceArmPublicIpRead`);
* the create-path existence probe (`resourceArmKeyVaultKeyCreate`);
* the backend-address-pool association delete patch body
  (`resourceNetworkInterfaceBackendAddressPoolAssociationDelete`).

Pure Go functions become Lean functions; the remote REST collaborators are
abstracted as environments recording the response of each call, and the
functions additionally return the list of remote calls they issued, so that
call-ordering and call-count properties can be stated.
-/

set_option autoImplicit false

namespace AzureStack

/-! ### HTTP responses and the not-found test -/

/-- An HTTP response, reduced to the status code, which is all the provider
code under consideration inspects. -/
structure Response where
  statusCode : Nat
deriving DecidableEq

/-- Modelled from the spec: `utils.ResponseWasNotFound` is not under `src/`
(it lives in the vendored helper library).  The spec describes the not-found
test as recognising an HTTP 404 from the remote API. -/
def responseWasNotFound (resp : Response) : Bool :=
  resp.statusCode == 404

/-! ### The soft-delete / purge state machine

`deleteAndOptionallyPurge` (package `azurestack`) drives a nested key-vault
item through delete, delete-convergence polling, optional purge, and
purge-convergence polling.  The four remote operations of the
`deleteAndPurgeNestedItem` interface are abstracted as an environment giving
the response of the one-shot delete and purge calls and of the k-th
status-probe call of each polling phase. -/

/-- Environment for one run of `deleteAndOptionallyPurge`: the outcome of
each remote call of the `deleteAndPurgeNestedItem` interface.  A call outcome
is a response paired with an optional error message (`none` = no error),
matching the Go `(autorest.Response, error)` pair. -/
structure NestedItemClient where
  deleteNestedItem : Response × Option String
  nestedItemHasBeenDeleted : Nat → Response × Option String
  purgeNestedItem : Response × Option String
  nestedItemHasBeenPurged : Nat → Response × Option String

/-- The remote calls `deleteAndOptionallyPurge` can issue. -/
inductive KVCall where
  | deleteItem
  | checkDeleted
  | purgeItem
  | checkPurged
deriving DecidableEq

/-- Outcome of one refresh step of a polling loop, as classified by the
refresh closures inside `deleteAndOptionallyPurge`: the target state
(`NotFound`), the pending state (`InProgress`), or a fatal error. -/
inductive RefreshOutcome where
  | target
  | pending
  | failed (e : String)
deriving DecidableEq

/-- The refresh closure built inside `deleteAndOptionallyPurge` around a
status probe: an errored probe whose response was a 404 is the target state,
any other errored probe is fatal, and a successful probe means the item is
still present (`InProgress`). -/
def refreshOf (probe : Nat → Response × Option String) (k : Nat) : RefreshOutcome :=
  match probe k with
  | (resp, some e) => if responseWasNotFound resp then .target else .failed e
  | (_, none) => .pending

/-- Terminal outcome of a polling loop. -/
inductive WaitOutcome where
  | converged
  | fatal (e : String)
  | timedOut
deriving DecidableEq

/-- Result of a polling loop: its terminal outcome together with the number
of refresh calls issued. -/
structure WaitResult where
  outcome : WaitOutcome
  polls : Nat
deriving DecidableEq

/-- Modelled from the spec: `resource.StateChangeConf.WaitForState` of the
plugin SDK is not under `src/`.  Per the spec, the poll repeats at a fixed
interval within the caller-supplied deadline, requires `occurrence`
consecutive target observations before declaring success, aborts immediately
on a fatal refresh error, and failing to converge within the deadline is a
fatal, surfaced error.  `fuel` is the number of poll slots left inside the
deadline, `k` the index of the next poll, and `streak` the current count of
consecutive target observations. -/
def waitLoop (refresh : Nat → RefreshOutcome) (occurrence : Nat) :
    Nat → Nat → Nat → WaitResult
  | 0, k, _ => ⟨.timedOut, k⟩
  | fuel + 1, k, streak =>
    match refresh k with
    | .failed e => ⟨.fatal e, k + 1⟩
    | .target =>
      if occurrence ≤ streak + 1 then ⟨.converged, k + 1⟩
      else waitLoop refresh occurrence fuel (k + 1) (streak + 1)
    | .pending => waitLoop refresh occurrence fuel (k + 1) 0

/-- Number of poll slots available when polling every `pollInterval` seconds
against a deadline `timeout` seconds away: polls happen at times
`0, pollInterval, 2 * pollInterval, ...` while the deadline has not passed. -/
def maxPolls (pollInterval timeout : Nat) : Nat :=
  timeout / pollInterval + 1

/-- Modelled from the spec (see `waitLoop`): a full polling run from the
first poll with an empty streak. -/
def waitForState (refresh : Nat → RefreshOutcome) (occurrence fuel : Nat) : WaitResult :=
  waitLoop refresh occurrence fuel 0 0

/-- `deleteAndOptionallyPurge` (package `azurestack`, translated from the
source): requires a context deadline, issues the delete (treating an errored
delete whose response is a 404 as success), polls the delete status probe
with a 5 second interval and 3 required consecutive not-found observations,
then — only when `shouldPurge` — issues the purge once and polls the purge
status probe with the same parameters.  The context is modelled as an
optional deadline, in seconds from the start of the call; the purge-phase
poll receives the time budget still remaining after the delete-phase polls.
Returns the error result (`none` = success) and the list of remote calls
issued, in order. -/
def deleteAndOptionallyPurge (ctxDeadline : Option Nat) (shouldPurge : Bool)
    (helper : NestedItemClient) : Option String × List KVCall :=
  match ctxDeadline with
  | none => (some "context is missing a timeout", [])
  | some timeout =>
    match helper.deleteNestedItem with
    | (resp, some e) =>
      if responseWasNotFound resp then (none, [.deleteItem])
      else (some ("deleting: " ++ e), [.deleteItem])
    | (_, none) =>
      let dw := waitForState (refreshOf helper.nestedItemHasBeenDeleted) 3
        (maxPolls 5 timeout)
      let traceD := KVCall.deleteItem :: List.replicate dw.polls KVCall.checkDeleted
      match dw.outcome with
      | .fatal e => (some ("waiting for deletion: " ++ e), traceD)
      | .timedOut => (some "waiting for deletion: timed out", traceD)
      | .converged =>
        if !shouldPurge then (none, traceD)
        else
          match helper.purgeNestedItem with
          | (_, some e) => (some ("purging: " ++ e), traceD ++ [KVCall.purgeItem])
          | (_, none) =>
            let pw := waitForState (refreshOf helper.nestedItemHasBeenPurged) 3
              (maxPolls 5 (timeout - 5 * dw.polls))
            let traceP := traceD ++ KVCall.purgeItem ::
              List.replicate pw.polls KVCall.checkPurged
            match pw.outcome with
            | .converged => (none, traceP)
            | .fatal e => (some ("waiting for purge: " ++ e), traceP)
            | .timedOut => (some "waiting for purge: timed out", traceP)

/-- The delete-convergence poll performed by `deleteAndOptionallyPurge`:
interval 5 seconds, 3 required consecutive not-found observations, within
the caller-supplied deadline. -/
def deleteWait (helper : NestedItemClient) (timeout : Nat) : WaitResult :=
  waitForState (refreshOf helper.nestedItemHasBeenDeleted) 3 (maxPolls 5 timeout)

/-- The purge-convergence poll performed by `deleteAndOptionallyPurge`:
same interval and convergence count, on the remaining time budget. -/
def purgeWait (helper : NestedItemClient) (timeout : Nat) : WaitResult :=
  waitForState (refreshOf helper.nestedItemHasBeenPurged) 3
    (maxPolls 5 (timeout - 5 * (deleteWait helper timeout).polls))

/-- Sample environment: the delete and the purge succeed and every status
probe reports a 404, so both polling phases converge after 3 probes. -/
def convergingClient : NestedItemClient where
  deleteNestedItem := (⟨200⟩, none)
  nestedItemHasBeenDeleted := fun _ => (⟨404⟩, some "not found")
  purgeNestedItem := (⟨200⟩, none)
  nestedItemHasBeenPurged := fun _ => (⟨404⟩, some "not found")

/-- Sample environment: the item is already absent, so the delete call
itself errors with a 404 response. -/
def absentItemClient : NestedItemClient where
  deleteNestedItem := (⟨404⟩, some "item not found")
  nestedItemHasBeenDeleted := fun _ => (⟨404⟩, some "not found")
  purgeNestedItem := (⟨200⟩, none)
  nestedItemHasBeenPurged := fun _ => (⟨404⟩, some "not found")

/-- Sample environment: the delete succeeds, the first two delete-status
probes report the item still present, and the third fails with a non-404
transport error. -/
def failingProbeClient : NestedItemClient where
  deleteNestedItem := (⟨200⟩, none)
  nestedItemHasBeenDeleted := fun k =>
    if k < 2 then (⟨200⟩, none) else (⟨500⟩, some "transport error")
  purgeNestedItem := (⟨200⟩, none)
  nestedItemHasBeenPurged := fun _ => (⟨404⟩, some "not found")

/-- Sample environment: every delete-status probe reports the item still
present, so the delete-convergence poll can never converge. -/
def pendingForeverClient : NestedItemClient where
  deleteNestedItem := (⟨200⟩, none)
  nestedItemHasBeenDeleted := fun _ => (⟨200⟩, none)
  purgeNestedItem := (⟨200⟩, none)
  nestedItemHasBeenPurged := fun _ => (⟨404⟩, some "not found")

/-! ### The resource-identifier codec

`SubnetId`, `SubnetId.ID`, `ParseSubnetID` and `subnetIDInsensitively` are
translated from the source (`part_004` of the `azurestack` network parse
code).  The underlying generic parser `azure.ParseAzureResourceID` and the
`ResourceID` methods `PopSegment` / `ValidateNoEmptySegments` live in a
vendored helper package that is not under `src/`, so they are modelled from
the spec, constrained by their call sites in the source. -/

/-- ASCII model of Go `strings.EqualFold`: equality after lower-casing.
The identifier segment keys compared with it are all ASCII. -/
def eqFold (a b : String) : Bool :=
  a.data.map Char.toLower == b.data.map Char.toLower

/-- Modelled from the spec: the `ResourceID` value produced by
`azure.ParseAzureResourceID` (not under `src/`) — the subscription ID, the
resource group, the provider, and the remaining segment key/value pairs.
The Go `Path` map is modelled as an association list in segment order. -/
structure ResourceID where
  SubscriptionID : String
  ResourceGroup : String
  Provider : String
  Path : List (String × String)
deriving DecidableEq

/-- Drops the single leading slash of a canonical identifier path. -/
def trimLeadingSlash (l : List Char) : List Char :=
  match l with
  | '/' :: rest => rest
  | l => l

/-- Modelled from the spec: pairing of the path components into alternating
segmentKey/segmentValue pairs; an odd component count is a malformed path,
and an empty key or value is an error. -/
def toPairs : List (List Char) → Except String (List (String × String))
  | [] => .ok []
  | [_] => .error "the number of path segments is not divisible by 2"
  | k :: v :: rest =>
    if k = [] ∨ v = [] then .error "key and value cannot be empty strings"
    else (toPairs rest).map (fun tail => (String.mk k, String.mk v) :: tail)

/-- Removes the first pair whose key matches `target` case-insensitively,
returning its value and the remaining pairs. -/
def extractFirstFold (target : String) : List (String × String) →
    Option (String × List (String × String))
  | [] => none
  | (k, v) :: rest =>
    if eqFold k target then some (v, rest)
    else
      match extractFirstFold target rest with
      | none => none
      | some (v2, rest2) => some (v2, (k, v) :: rest2)

/-- Removes the first pair whose key equals `target` exactly, returning its
value and the remaining pairs. -/
def extractFirstExact (target : String) : List (String × String) →
    Option (String × List (String × String))
  | [] => none
  | (k, v) :: rest =>
    if k = target then some (v, rest)
    else
      match extractFirstExact target rest with
      | none => none
      | some (v2, rest2) => some (v2, (k, v) :: rest2)

/-- Modelled from the spec: `azure.ParseAzureResourceID` (not under `src/`).
Per the spec it extracts fields by matching alternating
segmentKey/segmentValue pairs after the leading slash, matching the
well-known keys `subscriptions`, `resourceGroups` and `providers`
case-insensitively while preserving value casing, and signals a parse error
on a malformed path (odd segment count), a missing `subscriptions` segment,
or an empty segment key or value. -/
def ParseAzureResourceID (input : String) : Except String ResourceID :=
  match toPairs ((trimLeadingSlash input.data).splitOn '/') with
  | .error e => .error e
  | .ok pairs =>
    match extractFirstFold "subscriptions" pairs with
    | none => .error "no subscription ID found in the resource ID"
    | some (subId, rest1) =>
      let rg_rest :=
        match extractFirstFold "resourceGroups" rest1 with
        | none => ("", rest1)
        | some (v, rest) => (v, rest)
      let prov_rest :=
        match extractFirstFold "providers" rg_rest.2 with
        | none => ("", rg_rest.2)
        | some (v, rest) => (v, rest)
      .ok ⟨subId, rg_rest.1, prov_rest.1, prov_rest.2⟩

/-- Modelled from the spec: `ResourceID.PopSegment` (not under `src/`)
removes the segment with the given key and returns its value, erroring when
the key is absent.  The lookup is case-sensitive: the source's
`subnetIDInsensitively` first searches `Path` for the stored casing of a key
before popping it, which is meaningful only for an exact-key lookup, and the
repository's ID tests expect fully recased identifiers to be rejected by
the strict parsers. -/
def PopSegment (id : ResourceID) (key : String) : Except String (String × ResourceID) :=
  match extractFirstExact key id.Path with
  | none => .error ("ID was missing the " ++ key ++ " element")
  | some (v, rest) => .ok (v, { id with Path := rest })

/-- Modelled from the spec: `ResourceID.ValidateNoEmptySegments` (not under
`src/`) errors when unconsumed segments remain. -/
def ValidateNoEmptySegments (id : ResourceID) : Except String Unit :=
  if id.Path = [] then .ok () else .error "ID contained more segments than required"

/-- `SubnetId` (source): the four fields of a subnet identifier. -/
structure SubnetId where
  SubscriptionId : String
  ResourceGroup : String
  VirtualNetworkName : String
  Name : String
deriving DecidableEq

/-- `NewSubnetID` (source). -/
def NewSubnetID (subscriptionId resourceGroup virtualNetworkName name : String) : SubnetId :=
  ⟨subscriptionId, resourceGroup, virtualNetworkName, name⟩

/-- `SubnetId.ID` (source): the canonical slash-delimited identifier. -/
def SubnetId.ID (id : SubnetId) : String :=
  "/subscriptions/" ++ id.SubscriptionId ++ "/resourceGroups/" ++ id.ResourceGroup ++
    "/providers/Microsoft.Network/virtualNetworks/" ++ id.VirtualNetworkName ++
    "/subnets/" ++ id.Name

/-- The casing-search loop of `subnetIDInsensitively` (source): the stored
casing of the first `Path` key matching `target` case-insensitively, or
`target` itself when none matches. -/
def findKeyCasing (target : String) (path : List (String × String)) : String :=
  match path.find? (fun kv => eqFold kv.1 target) with
  | some kv => kv.1
  | none => target

/-- `ParseSubnetID` (source): the strict subnet identifier parser. -/
def ParseSubnetID (input : String) : Except String SubnetId := do
  let rid ← ParseAzureResourceID input
  if rid.SubscriptionID = "" then
    throw "ID was missing the subscriptions element"
  if rid.ResourceGroup = "" then
    throw "ID was missing the resourceGroups element"
  let (virtualNetworkName, rid1) ← PopSegment rid "virtualNetworks"
  let (name, rid2) ← PopSegment rid1 "subnets"
  ValidateNoEmptySegments rid2
  return NewSubnetID rid.SubscriptionID rid.ResourceGroup virtualNetworkName name

/-- `subnetIDInsensitively` (source): the parser variant that first finds
the stored casing of the `virtualNetworks` and `subnets` keys. -/
def subnetIDInsensitively (input : String) : Except String SubnetId := do
  let rid ← ParseAzureResourceID input
  if rid.SubscriptionID = "" then
    throw "ID was missing the subscriptions element"
  if rid.ResourceGroup = "" then
    throw "ID was missing the resourceGroups element"
  let virtualNetworksKey := findKeyCasing "virtualNetworks" rid.Path
  let (virtualNetworkName, rid1) ← PopSegment rid virtualNetworksKey
  let subnetsKey := findKeyCasing "subnets" rid1.Path
  let (name, rid2) ← PopSegment rid1 subnetsKey
  ValidateNoEmptySegments rid2
  return NewSubnetID rid.SubscriptionID rid.ResourceGroup virtualNetworkName name

/-- A subnet identifier string with freely chosen casings `k1`, `k2` of the
`virtualNetworks` and `subnets` segment keys. -/
def subnetIDStringWithKeys (k1 k2 s r v n : String) : String :=
  "/subscriptions/" ++ s ++ "/resourceGroups/" ++ r ++ "/providers/Microsoft.Network/" ++
    k1 ++ "/" ++ v ++ "/" ++ k2 ++ "/" ++ n

/-! ### Resource data and the read cycle

`resourceArmSubnetRead` (source, `part_004`) and `resourceArmPublicIpRead`
(source, `resource_arm_public_ip.go`) are translated from the body of the
Go functions, with the remote `Get` outcome passed in as a value.  A Go nil
pointer dereference is modelled as the `panicked` outcome. -/

/-- A value stored by `d.Set`, covering the attribute shapes the modelled
read functions write. -/
inductive Attr where
  | str (s : String)
  | optStr (s : Option String)
  | strs (l : List String)
  | optStrs (l : Option (List String))
  | optInt (i : Option Int)
  | pairs (l : List (String × String))
deriving DecidableEq

/-- The per-resource state the orchestrator persists: the opaque identifier
and the attribute sets issued so far (as an ordered log). -/
structure ResourceData where
  id : String
  attrs : List (String × Attr)
deriving DecidableEq

/-- `d.Set(key, value)`, modelled as appending to the attribute log. -/
def setAttr (d : ResourceData) (key : String) (value : Attr) : ResourceData :=
  { d with attrs := d.attrs ++ [(key, value)] }

/-- Go map indexing `id.Path[key]`, yielding the zero value for a missing
key. -/
def pathLookup (path : List (String × String)) (key : String) : String :=
  ((path.find? (fun kv => kv.1 == key)).map (fun kv => kv.2)).getD ""

/-- Outcome of a read cycle: success with the updated resource data, an
error, or a Go runtime panic (nil pointer dereference). -/
inductive ReadResult where
  | ok (d : ResourceData)
  | err (msg : String) (d : ResourceData)
  | panicked (msg : String)
deriving DecidableEq

/-- A reference held by a subnet body (`network.SecurityGroup`,
`network.RouteTable`, `network.IPConfiguration`): just an optional ID. -/
structure NetworkRef where
  ID : Option String
deriving DecidableEq

/-- `network.SubnetPropertiesFormat`, restricted to the fields the source
read function touches. -/
structure SubnetPropertiesFormat where
  AddressPrefix : Option String
  NetworkSecurityGroup : Option NetworkRef
  RouteTable : Option NetworkRef
  IPConfigurations : Option (List NetworkRef)
deriving DecidableEq

/-- `network.Subnet` as returned by `client.Get`: the embedded HTTP
response and the optional properties. -/
structure Subnet where
  Response : Response
  SubnetPropertiesFormat : Option SubnetPropertiesFormat
deriving DecidableEq

/-- `flattenSubnetIPConfigurations` (source): collects `*ip.ID` for each
IP configuration; a nil `ID` is a Go nil dereference, modelled as an
error. -/
def flattenSubnetIPConfigurations : Option (List NetworkRef) → Except String (List String)
  | none => .ok []
  | some ips =>
    ips.foldr (fun ip acc =>
      match ip.ID with
      | none => .error "runtime error: invalid memory address or nil pointer dereference"
      | some i => acc.map (fun rest => i :: rest)) (.ok [])

/-- `resourceArmSubnetRead` (source): parses the persisted identifier,
issues `Get` (whose outcome is `get`), clears the identifier and returns
nil on a 404, and otherwise decodes the body into the attribute set. -/
def resourceArmSubnetRead (d : ResourceData) (get : Subnet × Option String) : ReadResult :=
  match ParseAzureResourceID d.id with
  | .error e => .err e d
  | .ok rid =>
    let resGroup := rid.ResourceGroup
    let vnetName := pathLookup rid.Path "virtualNetworks"
    let name := pathLookup rid.Path "subnets"
    match get with
    | (resp, some e) =>
      if responseWasNotFound resp.Response then .ok { d with id := "" }
      else .err ("making Read request on Azure Subnet: " ++ e) d
    | (resp, none) =>
      let d1 := setAttr d "name" (.str name)
      let d2 := setAttr d1 "resource_group_name" (.str resGroup)
      let d3 := setAttr d2 "virtual_network_name" (.str vnetName)
      match resp.SubnetPropertiesFormat with
      | none => .ok d3
      | some props =>
        let d4 := setAttr d3 "address_prefix" (.optStr props.AddressPrefix)
        let d5 :=
          match props.NetworkSecurityGroup with
          | none => d4
          | some nsg => setAttr d4 "network_security_group_id" (.optStr nsg.ID)
        let d6 :=
          match props.RouteTable with
          | none => d5
          | some rt => setAttr d5 "route_table_id" (.optStr rt.ID)
        match flattenSubnetIPConfigurations props.IPConfigurations with
        | .error msg => .panicked msg
        | .ok ips => .ok (setAttr d6 "ip_configurations" (.strs ips))

/-- `network.PublicIPAddressDNSSettings`, restricted to the read fields. -/
structure PublicIPDNSSettings where
  Fqdn : Option String
deriving DecidableEq

/-- `network.PublicIPAddressPropertiesFormat`, restricted to the read
fields. -/
structure PublicIPAddressPropertiesFormat where
  PublicIPAllocationMethod : String
  DNSSettings : Option PublicIPDNSSettings
  IPAddress : Option String
  IdleTimeoutInMinutes : Option Int
deriving DecidableEq

/-- `network.PublicIPAddressSku`, restricted to the read fields. -/
structure PublicIPSku where
  Name : String
deriving DecidableEq

/-- `network.PublicIPAddress` as returned by `client.Get`. -/
structure PublicIPAddress where
  Response : Response
  Name : Option String
  Location : Option String
  Sku : Option PublicIPSku
  Zones : Option (List String)
  PublicIPAddressPropertiesFormat : Option PublicIPAddressPropertiesFormat
  Tags : List (String × String)
deriving DecidableEq

/-- Modelled from the spec: `azureStackNormalizeLocation` is not under
`src/`; Azure location normalization lower-cases and strips spaces. -/
def azureStackNormalizeLocation (input : String) : String :=
  (input.toLower.data.filter (fun c => c ≠ ' ')).asString

/-- `resourceArmPublicIpRead` (source): parses the persisted identifier,
issues `Get`, clears the identifier and returns nil on a 404, and otherwise
decodes the body.  The source dereferences
`resp.PublicIPAddressPropertiesFormat` unconditionally for the first
`allocation_method` set, so a body without properties panics. -/
def resourceArmPublicIpRead (d : ResourceData) (get : PublicIPAddress × Option String) :
    ReadResult :=
  match ParseAzureResourceID d.id with
  | .error e => .err e d
  | .ok rid =>
    let resGroup := rid.ResourceGroup
    let _name := pathLookup rid.Path "publicIPAddresses"
    match get with
    | (resp, some e) =>
      if responseWasNotFound resp.Response then .ok { d with id := "" }
      else .err ("making Read request on Public IP: " ++ e) d
    | (resp, none) =>
      let d1 := setAttr d "name" (.optStr resp.Name)
      let d2 := setAttr d1 "resource_group_name" (.str resGroup)
      let d3 :=
        match resp.Location with
        | none => d2
        | some location => setAttr d2 "location" (.str (azureStackNormalizeLocation location))
      match resp.PublicIPAddressPropertiesFormat with
      | none => .panicked "runtime error: invalid memory address or nil pointer dereference"
      | some props0 =>
        let d4 := setAttr d3 "allocation_method" (.str props0.PublicIPAllocationMethod.toLower)
        let d5 :=
          match resp.Sku with
          | none => d4
          | some sku => setAttr d4 "sku" (.str sku.Name)
        let d6 := setAttr d5 "zones" (.optStrs resp.Zones)
        let d7 :=
          match resp.PublicIPAddressPropertiesFormat with
          | none => d6
          | some props =>
            let d7a := setAttr d6 "allocation_method" (.str props.PublicIPAllocationMethod.toLower)
            let d7b :=
              match props.DNSSettings with
              | none => d7a
              | some settings => setAttr d7a "fqdn" (.optStr settings.Fqdn)
            let d7c := setAttr d7b "ip_address" (.optStr props.IPAddress)
            setAttr d7c "idle_timeout_in_minutes" (.optInt props.IdleTimeoutInMinutes)
        .ok (setAttr d7 "tags" (.pairs resp.Tags))

/-! ### The key-vault key create path

`resourceArmKeyVaultKeyCreate` (source, `part_003`) is translated with its
remote collaborators abstracted as an environment; it returns its outcome
and the ordered list of key-vault data-plane calls issued. -/

/-- `keyvault.JSONWebKey`, restricted to the key identifier. -/
structure JSONWebKey where
  Kid : Option String
deriving DecidableEq

/-- `keyvault.KeyBundle` as returned by `GetKey`. -/
structure KeyBundle where
  Response : Response
  Key : Option JSONWebKey
deriving DecidableEq

/-- The configuration attributes of the key resource that steer the create
control flow. -/
structure KeyVaultKeyConfig where
  key_type : String
  key_size : Option Int
deriving DecidableEq

/-- Environment for one run of the create path: the outcome of the
key-vault identifier parse (`VaultID`), of the vault URL lookup
(`BaseUriForKeyVault`), of the existence probe `GetKey`, of `CreateKey`,
and of the confirmatory `GetKey`. -/
structure KeyVaultKeyCreateEnv where
  vaultId : Except String Unit
  baseUri : Except String String
  getKeyProbe : KeyBundle × Option String
  createKey : Response × Option String
  getKeyRead : KeyBundle × Option String

/-- The key-vault data-plane calls the create path can issue. -/
inductive KVKeyCall where
  | getKey
  | createKey
deriving DecidableEq

/-- Outcome of the create path.  `importAsExists` models
`tf.ImportAsExistsError` (not under `src/`; per the spec an
"already exists" error surfaced as a user-correctable configuration
error); `proceededToRead` models the final tail call into the read
function after the identifier is persisted. -/
inductive CreateOutcome where
  | errored (msg : String)
  | importAsExists (resourceType id : String)
  | panicked (msg : String)
  | proceededToRead (newId : String)
deriving DecidableEq

/-- The probe condition of the source:
`existing.Key != nil && existing.Key.Kid != nil && *existing.Key.Kid != ""`. -/
def kidPresent (existing : KeyBundle) : Bool :=
  match existing.Key with
  | none => false
  | some k =>
    match k.Kid with
    | none => false
    | some kid => kid != ""

/-- `*existing.Key.Kid` where present (used only under `kidPresent`). -/
def kidOf (existing : KeyBundle) : String :=
  match existing.Key with
  | none => ""
  | some k => k.Kid.getD ""

/-- The probe error check of the source:
`err != nil && !utils.ResponseWasNotFound(existing.Response)`. -/
def probeFatal (probe : KeyBundle × Option String) : Bool :=
  match probe with
  | (existing, some _) => !responseWasNotFound existing.Response
  | (_, none) => false

/-- `resourceArmKeyVaultKeyCreate` (source): resolves the vault, probes
existence with `GetKey`, fails fast with an import-as-exists error when the
probe returns a key identifier, validates the RSA key size, then issues
`CreateKey` and the confirmatory `GetKey` whose key identifier becomes the
persisted ID. -/
def resourceArmKeyVaultKeyCreate (cfg : KeyVaultKeyConfig) (env : KeyVaultKeyCreateEnv) :
    CreateOutcome × List KVKeyCall :=
  match env.vaultId with
  | .error e => (.errored e, [])
  | .ok _ =>
    match env.baseUri with
    | .error e => (.errored ("Error looking up Key vault url: " ++ e), [])
    | .ok _ =>
      let (existing, gerr) := env.getKeyProbe
      if probeFatal (existing, gerr) then
        (.errored "Error checking for presence of existing Key", [.getKey])
      else if kidPresent existing then
        (.importAsExists "azurerm_key_vault_key" (kidOf existing), [.getKey])
      else
        let create : CreateOutcome × List KVKeyCall :=
          match env.createKey with
          | (_, some e) => (.errored ("Error Creating Key: " ++ e), [.getKey, .createKey])
          | (_, none) =>
            match env.getKeyRead with
            | (_, some e) => (.errored e, [.getKey, .createKey, .getKey])
            | (read, none) =>
              match read.Key with
              | none => (.panicked "runtime error: invalid memory address or nil pointer dereference",
                  [.getKey, .createKey, .getKey])
              | some k =>
                match k.Kid with
                | none => (.panicked "runtime error: invalid memory address or nil pointer dereference",
                    [.getKey, .createKey, .getKey])
                | some kid => (.proceededToRead kid, [.getKey, .createKey, .getKey])
        if cfg.key_type = "RSA" ∨ cfg.key_type = "RSA-HSM" then
          match cfg.key_size with
          | none => (.errored "Key size is required when creating an RSA key", [.getKey])
          | some _ => create
        else create

/-- A create environment whose probe succeeds with HTTP 200 but carries no
key identifier: the probe neither errors nor reports not-found. -/
def probeOkNoKidEnv : KeyVaultKeyCreateEnv where
  vaultId := .ok ()
  baseUri := .ok "https://vault.example"
  getKeyProbe := (⟨⟨200⟩, none⟩, none)
  createKey := (⟨200⟩, none)
  getKeyRead := (⟨⟨200⟩, some ⟨some "https://vault.example/keys/k/1"⟩⟩, none)

/-- A create environment whose probe reports an existing key. -/
def probeExistingKeyEnv : KeyVaultKeyCreateEnv where
  vaultId := .ok ()
  baseUri := .ok "https://vault.example"
  getKeyProbe := (⟨⟨200⟩, some ⟨some "https://vault.example/keys/k/1"⟩⟩, none)
  createKey := (⟨200⟩, none)
  getKeyRead := (⟨⟨200⟩, some ⟨some "https://vault.example/keys/k/1"⟩⟩, none)

/-! ### The storage-blob create path

`storageBlobCreate` (source, `storage_blob_resource.go`) is translated with
its storage collaborators abstracted as an environment; it returns its
outcome and the ordered list of blob data-plane calls issued. -/

/-- Environment for one run of `storageBlobCreate`: the outcome of
`FindAccount` (the account, or nil, and an error), of `BlobsClient`, the
resource identifier built by `GetResourceID`, the outcome of the
`GetProperties` existence probe, and of `blobInput.Create`. -/
structure StorageBlobCreateEnv where
  findAccount : Option Unit × Option String
  blobsClient : Except String Unit
  resourceId : String
  getProperties : Response × Option String
  createBlob : Option String

/-- The blob data-plane calls the create path can issue. -/
inductive BlobCall where
  | getProperties
  | create
deriving DecidableEq

/-- `storageBlobCreate` (source): resolves the account and the blobs
client; for a new (non-imported) resource it probes existence with
`GetProperties`, surfacing any non-404 probe error, returning the
import-as-exists error whenever the probe response is not a 404, and
uploading the blob only when the probe reported not-found.  The final
`proceededToRead` outcome models the tail call into `storageBlobUpdate`
after the identifier is persisted. -/
def storageBlobCreate (isNewResource : Bool) (env : StorageBlobCreateEnv) :
    CreateOutcome × List BlobCall :=
  match env.findAccount with
  | (_, some e) => (.errored ("retrieving Account: " ++ e), [])
  | (none, none) => (.errored "Unable to locate Storage Account!", [])
  | (some _, none) =>
    match env.blobsClient with
    | .error e => (.errored ("building Blobs Client: " ++ e), [])
    | .ok _ =>
      let create : List BlobCall → CreateOutcome × List BlobCall := fun trace =>
        match env.createBlob with
        | some e => (.errored ("creating Blob: " ++ e), trace ++ [.create])
        | none => (.proceededToRead env.resourceId, trace ++ [.create])
      if isNewResource then
        let (resp, gerr) := env.getProperties
        if (match gerr with
            | some _ => !responseWasNotFound resp
            | none => false) then
          (.errored "checking if Blob exists", [.getProperties])
        else if !responseWasNotFound resp then
          (.importAsExists "azurestack_storage_blob" env.resourceId, [.getProperties])
        else
          create [.getProperties]
      else
        create []

/-- A blob create environment whose probe finds the blob already present
(HTTP 200, no error). -/
def blobExistingEnv : StorageBlobCreateEnv where
  findAccount := (some (), none)
  blobsClient := .ok ()
  resourceId := "https://acct.blob.example/container1/blob1"
  getProperties := (⟨200⟩, none)
  createBlob := none

/-! ### The subnet route-table association create path

`resourceArmSubnetRouteTableAssociationCreate` (source, `config.go`) is
translated with the subnet client abstracted as an environment.  Here the
remote object whose existence is probed is the association itself: a
route-table reference already set on the observed subnet. -/

/-- `network.Subnet` as observed by the association create path: the
embedded response, the subnet's own ID, and the properties (whose
`RouteTable` field carries the association). -/
structure SubnetWithID where
  Response : Response
  ID : Option String
  SubnetPropertiesFormat : Option SubnetPropertiesFormat
deriving DecidableEq

/-- Environment for one run of the association create: the outcome of the
route-table identifier parse (`ParseRouteTableID`, not under `src/`), of
the subnet `Get` probe, of `CreateOrUpdate` and its completion wait, and of
the confirmatory `Get`. -/
structure SubnetRouteTableAssociationCreateEnv where
  routeTableIdParse : Except String Unit
  get : SubnetWithID × Option String
  createOrUpdate : Option String
  waitForCompletion : Option String
  getAfter : SubnetWithID × Option String

/-- The subnet-client calls the association create path can issue; the
`createOrUpdate` event records the body sent. -/
inductive RTACall where
  | get
  | createOrUpdate (body : SubnetWithID)
deriving DecidableEq

/-- Recognizes a `createOrUpdate` call event. -/
def isRTACreate : RTACall → Bool
  | .createOrUpdate _ => true
  | .get => false

/-- The import check of the source: the observed subnet carries a
route-table association with an ID, and the subnet body has an ID (which
becomes the import-as-exists identifier).  The source intentionally treats
any set `RouteTable` as an association to be imported, but only errors when
both IDs are present. -/
def observedAssociationId (subnet : SubnetWithID) : Option String :=
  match subnet.SubnetPropertiesFormat with
  | some props =>
    match props.RouteTable with
    | some rt =>
      match rt.ID, subnet.ID with
      | some _, some sid => some sid
      | _, _ => none
    | none => none
  | none => none

/-- `resourceArmSubnetRouteTableAssociationCreate` (source): parses both
identifiers, probes the subnet with `Get` (a 404 means the parent subnet is
missing, which is an error on this path), fails fast with the
import-as-exists error when the observed subnet already carries a
route-table association with an ID, and otherwise sends the observed body
with its `RouteTable` replaced by the new reference to `CreateOrUpdate`,
waits, and persists the ID returned by the confirmatory `Get`. -/
def resourceArmSubnetRouteTableAssociationCreate (subnetId routeTableId : String)
    (env : SubnetRouteTableAssociationCreateEnv) : CreateOutcome × List RTACall :=
  match ParseSubnetID subnetId with
  | .error e => (.errored e, [])
  | .ok _ =>
    match env.routeTableIdParse with
    | .error e => (.errored e, [])
    | .ok _ =>
      match env.get with
      | (subnet, some e) =>
        if responseWasNotFound subnet.Response then
          (.errored "Subnet was not found!", [.get])
        else (.errored ("Error retrieving Subnet: " ++ e), [.get])
      | (subnet, none) =>
        match observedAssociationId subnet with
        | some sid => (.importAsExists "azurestack_subnet_route_table_association" sid, [.get])
        | none =>
          let body : SubnetWithID :=
            match subnet.SubnetPropertiesFormat with
            | some props =>
              { subnet with
                  SubnetPropertiesFormat :=
                    some { props with RouteTable := some ⟨some routeTableId⟩ } }
            | none => subnet
          match env.createOrUpdate with
          | some e =>
            (.errored ("Error updating Route Table Association: " ++ e),
              [.get, .createOrUpdate body])
          | none =>
            match env.waitForCompletion with
            | some e =>
              (.errored ("Error waiting for completion: " ++ e), [.get, .createOrUpdate body])
            | none =>
              match env.getAfter with
              | (_, some e) =>
                (.errored ("Error retrieving Subnet: " ++ e),
                  [.get, .createOrUpdate body, .get])
              | (read, none) =>
                match read.ID with
                | none =>
                  (.panicked "runtime error: invalid memory address or nil pointer dereference",
                    [.get, .createOrUpdate body, .get])
                | some i => (.proceededToRead i, [.get, .createOrUpdate body, .get])

/-- An association create environment whose probe observes a subnet that
already carries a route-table association. -/
def rtaExistingEnv : SubnetRouteTableAssociationCreateEnv where
  routeTableIdParse := .ok ()
  get := (⟨⟨200⟩, some "subnetResourceId1", some ⟨none, none, some ⟨some "rt1"⟩, none⟩⟩, none)
  createOrUpdate := none
  waitForCompletion := none
  getAfter := (⟨⟨200⟩, some "subnetResourceId1", none⟩, none)

/-! ### The backend-address-pool association delete patch body

The delete path of
`resourceNetworkInterfaceBackendAddressPoolAssociationDelete` (source)
reads the network interface, removes the association's pool from the
targeted IP configuration, and sends the resulting body to
`CreateOrUpdate`.  Each wire structure carries an opaque `Rest` component
standing for its remaining fields, so that pass-through can be stated. -/

/-- `network.BackendAddressPool`: the pool membership entry. -/
structure BackendAddressPool where
  ID : Option String
  Rest : String
deriving DecidableEq

/-- `network.InterfaceIPConfigurationPropertiesFormat`. -/
structure InterfaceIPConfigurationPropertiesFormat where
  LoadBalancerBackendAddressPools : Option (List BackendAddressPool)
  Rest : String
deriving DecidableEq

/-- `network.InterfaceIPConfiguration`. -/
structure InterfaceIPConfiguration where
  Name : Option String
  InterfaceIPConfigurationPropertiesFormat : Option InterfaceIPConfigurationPropertiesFormat
  Rest : String
deriving DecidableEq

/-- `network.InterfacePropertiesFormat`. -/
structure InterfacePropertiesFormat where
  IPConfigurations : Option (List InterfaceIPConfiguration)
  Rest : String
deriving DecidableEq

/-- `network.Interface` as returned by `client.Get`. -/
structure Interface where
  InterfacePropertiesFormat : Option InterfacePropertiesFormat
  Rest : String
deriving DecidableEq

/-- Modelled from the spec: `FindNetworkInterfaceIPConfiguration` is not
under `src/`; its call sites require that it returns the IP configuration
with the given name when present and nil otherwise. -/
def FindNetworkInterfaceIPConfiguration (input : Option (List InterfaceIPConfiguration))
    (name : String) : Option InterfaceIPConfiguration :=
  match input with
  | none => none
  | some configs => configs.find? (fun c => c.Name == some name)

/-- Modelled from the spec: `updateNetworkInterfaceIPConfiguration` is not
under `src/`; its call sites require that it writes the updated
configuration back into the configuration list in place of the entries
carrying its name. -/
def updateNetworkInterfaceIPConfiguration (config : InterfaceIPConfiguration)
    (configs : Option (List InterfaceIPConfiguration)) :
    Option (List InterfaceIPConfiguration) :=
  match configs with
  | none => some []
  | some cs => some (cs.map (fun c => if c.Name == config.Name then config else c))

/-- An IP configuration with its backend pool list replaced. -/
def withPools (config : InterfaceIPConfiguration)
    (props : InterfaceIPConfigurationPropertiesFormat)
    (newPools : List BackendAddressPool) : InterfaceIPConfiguration :=
  { config with InterfaceIPConfigurationPropertiesFormat := some { props with LoadBalancerBackendAddressPools := some newPools } }

/-- The patch body computed by the source delete path from the read
network-interface body: the targeted IP configuration keeps exactly the
observed pools whose non-nil ID differs from the association's pool ID
(`pool.ID == nil` entries are skipped by the loop), and the rewritten body
is sent to `CreateOrUpdate`.  The surrounding identifier split, locking and
`Get` error handling of the source function do not contribute to the
body. -/
def backendAddressPoolAssociationDeletePatchBody (read : Interface)
    (ipConfigurationName backendAddressPoolId : String) : Except String Interface :=
  match read.InterfacePropertiesFormat with
  | none => .error "properties was nil for Network Interface"
  | some nicProps =>
    match nicProps.IPConfigurations with
    | none => .error "properties.IPConfigurations was nil for Network Interface"
    | some _ =>
      match FindNetworkInterfaceIPConfiguration nicProps.IPConfigurations ipConfigurationName with
      | none => .error "IP Configuration was not found on Network Interface"
      | some config =>
        match config.InterfaceIPConfigurationPropertiesFormat with
        | none => .error "Properties for IPConfiguration was nil"
        | some props =>
          let backendAddressPools :=
            match props.LoadBalancerBackendAddressPools with
            | none => []
            | some backendPools => backendPools.filter (fun pool =>
                match pool.ID with
                | none => false
                | some pid => pid != backendAddressPoolId)
          let props2 := { props with LoadBalancerBackendAddressPools := some backendAddressPools }
          let config2 := { config with InterfaceIPConfigurationPropertiesFormat := some props2 }
          let nicProps2 := { nicProps with
            IPConfigurations := updateNetworkInterfaceIPConfiguration config2 nicProps.IPConfigurations }
          .ok { read with InterfacePropertiesFormat := some nicProps2 }

/-! ### Generic facts about the polling loop -/

/-- Polls issued by a run of the loop never exceed the starting index plus
the available fuel. -/
theorem waitLoop_polls_le (refresh : Nat → RefreshOutcome) (occurrence : Nat) :
    ∀ fuel k streak, (waitLoop refresh occurrence fuel k streak).polls ≤ k + fuel := by
  intro fuel
  induction fuel with
  | zero => intro k streak; simp [waitLoop]
  | succ fuel ih =>
    intro k streak
    unfold waitLoop
    cases hr : refresh k with
    | failed e => simp
    | target =>
      by_cases hocc : occurrence ≤ streak + 1
      · simp [hocc]
      · have := ih (k + 1) (streak + 1)
        simp [hocc]; omega
    | pending =>
      have := ih (k + 1) 0
      simp; omega

/-- A fatal result of the loop pins down its shape: the last refresh call is
the one that returned the error, every earlier refresh call of this run did
not error, and at least one call was made. -/
theorem waitLoop_fatal_inversion (refresh : Nat → RefreshOutcome) (occurrence : Nat) :
    ∀ fuel k streak e n, waitLoop refresh occurrence fuel k streak = ⟨.fatal e, n⟩ →
      k < n ∧ n ≤ k + fuel ∧ refresh (n - 1) = .failed e ∧
        ∀ j, k ≤ j → j < n - 1 → ∀ e2, refresh j ≠ .failed e2 := by
  intro fuel
  induction fuel with
  | zero => intro k streak e n h; simp [waitLoop] at h
  | succ fuel ih =>
    intro k streak e n h
    unfold waitLoop at h
    cases hr : refresh k with
    | failed e0 =>
      rw [hr] at h
      simp at h
      obtain ⟨he, hn⟩ := h
      subst he
      refine ⟨by omega, by omega, ?_, ?_⟩
      · have hk : n - 1 = k := by omega
        rw [hk]; exact hr
      · intro j hj1 hj2 e2
        exfalso; omega
    | target =>
      rw [hr] at h
      by_cases hocc : occurrence ≤ streak + 1
      · simp [hocc] at h
      · simp [hocc] at h
        obtain ⟨h1, h2, h3, h4⟩ := ih (k + 1) (streak + 1) e n h
        refine ⟨by omega, by omega, h3, ?_⟩
        intro j hj1 hj2 e2
        rcases Nat.eq_or_lt_of_le hj1 with hk | hk
        · subst hk; simp [hr]
        · exact h4 j hk hj2 e2
    | pending =>
      rw [hr] at h
      simp at h
      obtain ⟨h1, h2, h3, h4⟩ := ih (k + 1) 0 e n h
      refine ⟨by omega, by omega, h3, ?_⟩
      intro j hj1 hj2 e2
      rcases Nat.eq_or_lt_of_le hj1 with hk | hk
      · subst hk; simp [hr]
      · exact h4 j hk hj2 e2

/-- A timed-out result of the loop means the whole fuel budget was spent. -/
theorem waitLoop_timedOut_inversion (refresh : Nat → RefreshOutcome) (occurrence : Nat) :
    ∀ fuel k streak n, waitLoop refresh occurrence fuel k streak = ⟨.timedOut, n⟩ →
      n = k + fuel := by
  intro fuel
  induction fuel with
  | zero => intro k streak n h; simp [waitLoop] at h; omega
  | succ fuel ih =>
    intro k streak n h
    unfold waitLoop at h
    cases hr : refresh k with
    | failed e0 => rw [hr] at h; simp at h
    | target =>
      rw [hr] at h
      by_cases hocc : occurrence ≤ streak + 1
      · simp [hocc] at h
      · simp [hocc] at h
        have := ih (k + 1) (streak + 1) n h
        omega
    | pending =>
      rw [hr] at h
      simp at h
      have := ih (k + 1) 0 n h
      omega

/-- A converged result of the loop pins down its shape: provided the current
streak is backed by that many immediately preceding target observations, the
final `occurrence` refresh calls all returned the target state, and at least
`occurrence` calls were observed in total. -/
theorem waitLoop_converged_inversion (refresh : Nat → RefreshOutcome) (occurrence : Nat) :
    ∀ fuel k streak n, waitLoop refresh occurrence fuel k streak = ⟨.converged, n⟩ →
      (∀ j, j < streak → refresh (k - 1 - j) = .target) → streak ≤ k →
      (∀ j, j < occurrence → refresh (n - 1 - j) = .target) ∧
        occurrence ≤ n ∧ k < n ∧ n ≤ k + fuel := by
  intro fuel
  induction fuel with
  | zero => intro k streak n h _ _; simp [waitLoop] at h
  | succ fuel ih =>
    intro k streak n h hstreak hsk
    unfold waitLoop at h
    cases hr : refresh k with
    | failed e0 => rw [hr] at h; simp at h
    | target =>
      rw [hr] at h
      by_cases hocc : occurrence ≤ streak + 1
      · simp [hocc] at h
        refine ⟨?_, by omega, by omega, by omega⟩
        intro j hj
        rcases Nat.eq_zero_or_pos j with hj0 | hj0
        · subst hj0
          have hk : n - 1 - 0 = k := by omega
          rw [hk]; exact hr
        · have hk : n - 1 - j = k - 1 - (j - 1) := by omega
          rw [hk]
          exact hstreak (j - 1) (by omega)
      · simp [hocc] at h
        have hstreak' : ∀ j, j < streak + 1 → refresh (k + 1 - 1 - j) = .target := by
          intro j hj
          rcases Nat.eq_zero_or_pos j with hj0 | hj0
          · subst hj0; simpa using hr
          · have hk : k + 1 - 1 - j = k - 1 - (j - 1) := by omega
            rw [hk]
            exact hstreak (j - 1) (by omega)
        obtain ⟨h1, h2, h3, h4⟩ := ih (k + 1) (streak + 1) n h hstreak' (by omega)
        exact ⟨h1, h2, by omega, by omega⟩
    | pending =>
      rw [hr] at h
      simp at h
      obtain ⟨h1, h2, h3, h4⟩ := ih (k + 1) 0 n h (by omega) (by omega)
      exact ⟨h1, h2, by omega, by omega⟩

/-! ### Facts about the codec -/

theorem string_data_append (a b : String) : (a ++ b).data = a.data ++ b.data := rfl

theorem mk_data (s : String) : String.mk s.data = s := rfl

theorem data_ne_nil {s : String} (h : s ≠ "") : s.data ≠ [] :=
  fun h2 => h (String.ext h2)

theorem trimLeadingSlash_cons (l : List Char) : trimLeadingSlash ('/' :: l) = l := rfl

theorem splitOn_sep_append (xs as : List Char) (h : '/' ∉ xs) :
    (xs ++ '/' :: as).splitOn '/' = xs :: as.splitOn '/' := by
  unfold List.splitOn
  refine List.splitOnP_first (· == '/') xs ?_ '/' (by simp) as
  intro x hx
  simp only [beq_iff_eq]
  exact fun hc => h (hc ▸ hx)

theorem splitOn_single (xs : List Char) (h : '/' ∉ xs) : xs.splitOn '/' = [xs] := by
  unfold List.splitOn
  refine List.splitOnP_eq_single (· == '/') xs ?_
  intro x hx
  simp only [beq_iff_eq]
  exact fun hc => h (hc ▸ hx)

/-! ### Claim theorems for the soft-delete state machine -/

/-- C9: if the context passed to `deleteAndOptionallyPurge` carries no
deadline, the function returns the error "context is missing a timeout"
immediately, before issuing any delete, poll, or purge call. -/
theorem c9_missing_deadline_rejected_before_any_call :
    ∀ (shouldPurge : Bool) (helper : NestedItemClient),
      deleteAndOptionallyPurge none shouldPurge helper
        = (some "context is missing a timeout", []) := by
  intro _ _
  rfl

/-- C3: when the delete call reports "not found", `deleteAndOptionallyPurge`
returns a nil error: the already-absent remote object is treated as
success, with no further remote calls. -/
theorem c3_delete_not_found_is_success :
    ∀ (timeout : Nat) (shouldPurge : Bool) (helper : NestedItemClient)
      (resp : Response) (e : String),
      helper.deleteNestedItem = (resp, some e) →
      responseWasNotFound resp = true →
      deleteAndOptionallyPurge (some timeout) shouldPurge helper
        = (none, [KVCall.deleteItem]) := by
  intro timeout shouldPurge helper resp e hdel hnf
  simp [deleteAndOptionallyPurge, hdel, hnf]

/-- C3 witness: a concrete environment whose delete call errors with a 404
response. -/
theorem c3_witness :
    absentItemClient.deleteNestedItem = (⟨404⟩, some "item not found") ∧
    responseWasNotFound ⟨404⟩ = true ∧
    deleteAndOptionallyPurge (some 60) true absentItemClient
      = (none, [KVCall.deleteItem]) :=
  ⟨rfl, rfl,
    c3_delete_not_found_is_success 60 true absentItemClient ⟨404⟩
      "item not found" rfl rfl⟩

/-- C2: with `shouldPurge = false` the function never issues a purge or
purge-status call, and returns success right after the delete-convergence
poll converges; with `shouldPurge = true` it issues the purge exactly once,
strictly between the delete-convergence probes and the purge-convergence
probes, and returns success exactly when the purge-convergence poll
converges. -/
theorem c2_purge_gating :
    ∀ (timeout : Nat) (helper : NestedItemClient),
      ((deleteAndOptionallyPurge (some timeout) false helper).2.count KVCall.purgeItem = 0 ∧
        (deleteAndOptionallyPurge (some timeout) false helper).2.count KVCall.checkPurged = 0) ∧
      (∀ resp : Response, helper.deleteNestedItem = (resp, none) →
        (deleteWait helper timeout).outcome = .converged →
        deleteAndOptionallyPurge (some timeout) false helper
          = (none, KVCall.deleteItem ::
              List.replicate (deleteWait helper timeout).polls KVCall.checkDeleted) ∧
        ∀ resp2 : Response, helper.purgeNestedItem = (resp2, none) →
          (deleteAndOptionallyPurge (some timeout) true helper).2
            = KVCall.deleteItem ::
                List.replicate (deleteWait helper timeout).polls KVCall.checkDeleted
              ++ KVCall.purgeItem ::
                List.replicate (purgeWait helper timeout).polls KVCall.checkPurged ∧
          (deleteAndOptionallyPurge (some timeout) true helper).2.count KVCall.purgeItem = 1 ∧
          ((deleteAndOptionallyPurge (some timeout) true helper).1 = none ↔
            (purgeWait helper timeout).outcome = .converged)) := by
  intro timeout helper
  constructor
  · rcases hd : helper.deleteNestedItem with ⟨r, oe⟩
    cases oe with
    | none =>
      rcases hw : waitForState (refreshOf helper.nestedItemHasBeenDeleted) 3
          (maxPolls 5 timeout) with ⟨ow, pn⟩
      cases ow <;>
        simp [deleteAndOptionallyPurge, hd, hw, List.count_cons, List.count_replicate]
    | some e =>
      by_cases hnf : responseWasNotFound r = true <;>
        simp [deleteAndOptionallyPurge, hd, hnf]
  · intro resp hd hconv
    rcases hw : waitForState (refreshOf helper.nestedItemHasBeenDeleted) 3
        (maxPolls 5 timeout) with ⟨ow, pn⟩
    have how : ow = .converged := by
      have := hconv
      simp [deleteWait, hw] at this
      exact this
    subst how
    constructor
    · simp [deleteAndOptionallyPurge, hd, hw, deleteWait]
    · intro resp2 hp
      rcases hw2 : waitForState (refreshOf helper.nestedItemHasBeenPurged) 3
          (maxPolls 5 (timeout - 5 * pn)) with ⟨ow2, pn2⟩
      have hpw : purgeWait helper timeout = ⟨ow2, pn2⟩ := by
        simp [purgeWait, deleteWait, hw, hw2]
      refine ⟨?_, ?_, ?_⟩
      · cases ow2 <;>
          simp [deleteAndOptionallyPurge, hd, hw, hp, hw2, deleteWait, hpw]
      · cases ow2 <;>
          simp [deleteAndOptionallyPurge, hd, hw, hp, hw2, List.count_cons,
            List.count_replicate]
      · cases ow2 <;>
          simp [deleteAndOptionallyPurge, hd, hw, hp, hw2, hpw]

/-- C2 witness: a concrete converging environment, run with both values of
`shouldPurge`. -/
theorem c2_purge_gating_witness :
    ((deleteWait convergingClient 60).outcome = .converged ∧
      convergingClient.purgeNestedItem = (⟨200⟩, none)) ∧
    deleteAndOptionallyPurge (some 60) false convergingClient
      = (none, KVCall.deleteItem ::
          List.replicate (deleteWait convergingClient 60).polls KVCall.checkDeleted) ∧
    (deleteAndOptionallyPurge (some 60) true convergingClient).2.count KVCall.purgeItem = 1 :=
  ⟨⟨by decide, rfl⟩,
    ((c2_purge_gating 60 convergingClient).2 ⟨200⟩ rfl (by decide)).1,
    (((c2_purge_gating 60 convergingClient).2 ⟨200⟩ rfl (by decide)).2 ⟨200⟩ rfl).2.1⟩

/-- C7: a status-probe error other than "not found" is fatal for either
polling phase: the refresh step classifies it as failed, a fatal poll result
means the very last probe produced that error and no earlier probe of the
run errored (the loop never retries past an error), and
`deleteAndOptionallyPurge` surfaces the error immediately — after a fatal
delete-phase probe no purge or purge-probe call is ever issued. -/
theorem c7_poll_errors_are_fatal :
    (∀ (probe : Nat → Response × Option String) (k : Nat) (r : Response) (e : String),
      probe k = (r, some e) → responseWasNotFound r = false →
      refreshOf probe k = .failed e) ∧
    (∀ (refresh : Nat → RefreshOutcome) (occurrence fuel : Nat) (e : String) (n : Nat),
      waitForState refresh occurrence fuel = ⟨.fatal e, n⟩ →
      0 < n ∧ n ≤ fuel ∧ refresh (n - 1) = .failed e ∧
        ∀ j, j < n - 1 → ∀ e2, refresh j ≠ .failed e2) ∧
    (∀ (timeout : Nat) (shouldPurge : Bool) (helper : NestedItemClient)
      (resp : Response) (e : String) (n : Nat),
      helper.deleteNestedItem = (resp, none) →
      deleteWait helper timeout = ⟨.fatal e, n⟩ →
      deleteAndOptionallyPurge (some timeout) shouldPurge helper
        = (some ("waiting for deletion: " ++ e),
            KVCall.deleteItem :: List.replicate n KVCall.checkDeleted)) ∧
    (∀ (timeout : Nat) (helper : NestedItemClient)
      (resp resp2 : Response) (e : String) (n : Nat),
      helper.deleteNestedItem = (resp, none) →
      (deleteWait helper timeout).outcome = .converged →
      helper.purgeNestedItem = (resp2, none) →
      purgeWait helper timeout = ⟨.fatal e, n⟩ →
      deleteAndOptionallyPurge (some timeout) true helper
        = (some ("waiting for purge: " ++ e),
            KVCall.deleteItem ::
              List.replicate (deleteWait helper timeout).polls KVCall.checkDeleted
            ++ KVCall.purgeItem :: List.replicate n KVCall.checkPurged)) := by
  refine ⟨?_, ?_, ?_, ?_⟩
  · intro probe k r e hp hnf
    simp [refreshOf, hp, hnf]
  · intro refresh occurrence fuel e n h
    obtain ⟨h1, h2, h3, h4⟩ :=
      waitLoop_fatal_inversion refresh occurrence fuel 0 0 e n h
    exact ⟨h1, by omega, h3, fun j hj e2 => h4 j (Nat.zero_le j) hj e2⟩
  · intro timeout shouldPurge helper resp e n hd hw
    have hw' : waitForState (refreshOf helper.nestedItemHasBeenDeleted) 3
        (maxPolls 5 timeout) = ⟨.fatal e, n⟩ := hw
    simp [deleteAndOptionallyPurge, hd, hw']
  · intro timeout helper resp resp2 e n hd hconv hp hw2
    rcases hw : waitForState (refreshOf helper.nestedItemHasBeenDeleted) 3
        (maxPolls 5 timeout) with ⟨ow, pn⟩
    have how : ow = .converged := by
      have hx := hconv
      simp [deleteWait, hw] at hx
      exact hx
    subst how
    have hw2' : waitForState (refreshOf helper.nestedItemHasBeenPurged) 3
        (maxPolls 5 (timeout - 5 * pn)) = ⟨.fatal e, n⟩ := by
      have hx := hw2
      simp [purgeWait, deleteWait, hw] at hx
      exact hx
    simp [deleteAndOptionallyPurge, hd, hw, hp, hw2', deleteWait]

/-- C7 witness: a concrete environment whose third delete-status probe
fails with a 500 transport error; the run aborts right there with the
surfaced error, after exactly three probes and with no purge calls. -/
theorem c7_poll_errors_are_fatal_witness :
    failingProbeClient.nestedItemHasBeenDeleted 2 = (⟨500⟩, some "transport error") ∧
    deleteWait failingProbeClient 60 = ⟨.fatal "transport error", 3⟩ ∧
    deleteAndOptionallyPurge (some 60) true failingProbeClient
      = (some "waiting for deletion: transport error",
          KVCall.deleteItem :: List.replicate 3 KVCall.checkDeleted) :=
  ⟨rfl, by decide,
    c7_poll_errors_are_fatal.2.2.1 60 true failingProbeClient ⟨200⟩
      "transport error" 3 rfl (by decide)⟩

/-- C8: a poll with required occurrence 3 never converges before its last
three refresh calls all observed the target (not-found) state and never
before the third call; a poll run against the deadline `timeout` with the
5-second interval issues its last call no later than the deadline; a poll
that exhausts the deadline without converging makes
`deleteAndOptionallyPurge` surface a fatal error; and a successful purging
run means the purge-convergence poll — which uses the same required
occurrence of 3 — converged. -/
theorem c8_poll_convergence_discipline :
    (∀ (refresh : Nat → RefreshOutcome) (fuel n : Nat),
      waitForState refresh 3 fuel = ⟨.converged, n⟩ →
      3 ≤ n ∧ n ≤ fuel ∧ refresh (n - 1) = .target ∧
        refresh (n - 2) = .target ∧ refresh (n - 3) = .target) ∧
    (∀ (refresh : Nat → RefreshOutcome) (occurrence timeout : Nat),
      5 * ((waitForState refresh occurrence (maxPolls 5 timeout)).polls - 1) ≤ timeout) ∧
    (∀ (timeout : Nat) (shouldPurge : Bool) (helper : NestedItemClient)
      (resp : Response) (n : Nat),
      helper.deleteNestedItem = (resp, none) →
      deleteWait helper timeout = ⟨.timedOut, n⟩ →
      deleteAndOptionallyPurge (some timeout) shouldPurge helper
        = (some "waiting for deletion: timed out",
            KVCall.deleteItem :: List.replicate n KVCall.checkDeleted)) ∧
    (∀ (timeout : Nat) (helper : NestedItemClient) (resp resp2 : Response),
      helper.deleteNestedItem = (resp, none) →
      (deleteWait helper timeout).outcome = .converged →
      helper.purgeNestedItem = (resp2, none) →
      (deleteAndOptionallyPurge (some timeout) true helper).1 = none →
      (purgeWait helper timeout).outcome = .converged) := by
  refine ⟨?_, ?_, ?_, ?_⟩
  · intro refresh fuel n h
    obtain ⟨h1, h2, h3, h4⟩ :=
      waitLoop_converged_inversion refresh 3 fuel 0 0 n h
        (by intro j hj; omega) (Nat.le_refl 0)
    have e1 := h1 0 (by omega)
    have e2 := h1 1 (by omega)
    have e3 := h1 2 (by omega)
    have k1 : n - 1 - 0 = n - 1 := by omega
    have k2 : n - 1 - 1 = n - 2 := by omega
    have k3 : n - 1 - 2 = n - 3 := by omega
    rw [k1] at e1; rw [k2] at e2; rw [k3] at e3
    exact ⟨h2, by omega, e1, e2, e3⟩
  · intro refresh occurrence timeout
    have hle := waitLoop_polls_le refresh occurrence (maxPolls 5 timeout) 0 0
    have hdiv : timeout / 5 * 5 ≤ timeout := Nat.div_mul_le_self timeout 5
    simp only [waitForState, maxPolls] at hle ⊢
    omega
  · intro timeout shouldPurge helper resp n hd hw
    have hw' : waitForState (refreshOf helper.nestedItemHasBeenDeleted) 3
        (maxPolls 5 timeout) = ⟨.timedOut, n⟩ := hw
    simp [deleteAndOptionallyPurge, hd, hw']
  · intro timeout helper resp resp2 hd hconv hp hok
    rcases hw : waitForState (refreshOf helper.nestedItemHasBeenDeleted) 3
        (maxPolls 5 timeout) with ⟨ow, pn⟩
    have how : ow = .converged := by
      have hx := hconv
      simp [deleteWait, hw] at hx
      exact hx
    subst how
    rcases hw2 : waitForState (refreshOf helper.nestedItemHasBeenPurged) 3
        (maxPolls 5 (timeout - 5 * pn)) with ⟨ow2, pn2⟩
    have hpw : purgeWait helper timeout = ⟨ow2, pn2⟩ := by
      simp [purgeWait, deleteWait, hw, hw2]
    rw [hpw]
    cases ow2 with
    | converged => rfl
    | fatal e =>
      exfalso
      simp [deleteAndOptionallyPurge, hd, hw, hp, hw2] at hok
    | timedOut =>
      exfalso
      simp [deleteAndOptionallyPurge, hd, hw, hp, hw2] at hok

/-- C8 witness: the converging environment reaches convergence at exactly
the third probe; the pending-forever environment exhausts a 60-second
deadline after 13 probes (times 0,5,...,60) and surfaces the timeout. -/
theorem c8_poll_convergence_discipline_witness :
    deleteWait convergingClient 60 = ⟨.converged, 3⟩ ∧
    (3 ≤ 3 ∧ 3 ≤ maxPolls 5 60 ∧
      refreshOf convergingClient.nestedItemHasBeenDeleted (3 - 1) = .target ∧
      refreshOf convergingClient.nestedItemHasBeenDeleted (3 - 2) = .target ∧
      refreshOf convergingClient.nestedItemHasBeenDeleted (3 - 3) = .target) ∧
    deleteWait pendingForeverClient 60 = ⟨.timedOut, 13⟩ ∧
    deleteAndOptionallyPurge (some 60) true pendingForeverClient
      = (some "waiting for deletion: timed out",
          KVCall.deleteItem :: List.replicate 13 KVCall.checkDeleted) :=
  ⟨by decide,
    c8_poll_convergence_discipline.1
      (refreshOf convergingClient.nestedItemHasBeenDeleted) (maxPolls 5 60) 3 (by decide),
    by decide,
    c8_poll_convergence_discipline.2.2.1 60 true pendingForeverClient ⟨200⟩ 13
      rfl (by decide)⟩

/-! ### Claim theorems for the resource-identifier codec -/

/-- C1 counterexample: the round-trip claim fails for non-empty field
values containing a slash.  With `Name = "a/b"` all four fields are
non-empty strings, yet parsing the formatted identifier fails (the path has
an odd number of segments), so `ParseSubnetID (id.ID())` does not return
`id`. -/
theorem c1_roundtrip_counterexample :
    ("sub1" ≠ "" ∧ "rg1" ≠ "" ∧ "vnet1" ≠ "" ∧ "a/b" ≠ "") ∧
    (ParseSubnetID ((NewSubnetID "sub1" "rg1" "vnet1" "a/b").ID)).toOption = none := by
  exact ⟨by decide, by decide⟩

/-- C1 (amended): for all four fields non-empty and free of the slash
delimiter, parsing the canonical string produced by `ID()` round-trips
losslessly, with the casing of every segment value preserved. -/
theorem c1_subnet_id_roundtrip (s r v n : String)
    (hs : s ≠ "") (hr : r ≠ "") (hv : v ≠ "") (hn : n ≠ "")
    (hs2 : '/' ∉ s.data) (hr2 : '/' ∉ r.data) (hv2 : '/' ∉ v.data) (hn2 : '/' ∉ n.data) :
    ParseSubnetID (SubnetId.ID (NewSubnetID s r v n)) = .ok (NewSubnetID s r v n) := by
  have h1 : "/subscriptions/".data = '/' :: ("subscriptions".data ++ ['/']) := rfl
  have h2 : "/resourceGroups/".data = '/' :: ("resourceGroups".data ++ ['/']) := rfl
  have h3 : "/providers/Microsoft.Network/virtualNetworks/".data
      = '/' :: ("providers".data ++ '/' :: ("Microsoft.Network".data ++ '/' ::
          ("virtualNetworks".data ++ ['/']))) := rfl
  have h4 : "/subnets/".data = '/' :: ("subnets".data ++ ['/']) := rfl
  have hdata : (SubnetId.ID (NewSubnetID s r v n)).data
      = '/' :: ("subscriptions".data ++ '/' :: (s.data ++ '/' :: ("resourceGroups".data ++ '/' ::
          (r.data ++ '/' :: ("providers".data ++ '/' :: ("Microsoft.Network".data ++ '/' ::
          ("virtualNetworks".data ++ '/' :: (v.data ++ '/' ::
          ("subnets".data ++ '/' :: n.data))))))))) := by
    simp [SubnetId.ID, NewSubnetID, string_data_append, h1, h2, h3, h4, List.append_assoc]
  have hsegs : ((trimLeadingSlash (SubnetId.ID (NewSubnetID s r v n)).data).splitOn '/')
      = ["subscriptions".data, s.data, "resourceGroups".data, r.data, "providers".data,
          "Microsoft.Network".data, "virtualNetworks".data, v.data, "subnets".data, n.data] := by
    rw [hdata, trimLeadingSlash_cons]
    rw [splitOn_sep_append _ _ (by decide)]
    rw [splitOn_sep_append _ _ hs2]
    rw [splitOn_sep_append _ _ (by decide)]
    rw [splitOn_sep_append _ _ hr2]
    rw [splitOn_sep_append _ _ (by decide)]
    rw [splitOn_sep_append _ _ (by decide)]
    rw [splitOn_sep_append _ _ (by decide)]
    rw [splitOn_sep_append _ _ hv2]
    rw [splitOn_sep_append _ _ (by decide)]
    rw [splitOn_single _ hn2]
  have hpairs : toPairs ["subscriptions".data, s.data, "resourceGroups".data, r.data,
      "providers".data, "Microsoft.Network".data, "virtualNetworks".data, v.data,
      "subnets".data, n.data]
      = .ok [("subscriptions", s), ("resourceGroups", r), ("providers", "Microsoft.Network"),
          ("virtualNetworks", v), ("subnets", n)] := by
    simp [toPairs, data_ne_nil hs, data_ne_nil hr, data_ne_nil hv, data_ne_nil hn, mk_data,
      Except.map]
  have ef1 : eqFold "subscriptions" "subscriptions" = true := by decide
  have ef2 : eqFold "resourceGroups" "resourceGroups" = true := by decide
  have ef3 : eqFold "providers" "providers" = true := by decide
  unfold ParseSubnetID ParseAzureResourceID
  rw [hsegs, hpairs]
  simp [extractFirstFold, ef1, ef2, ef3, PopSegment, extractFirstExact,
    ValidateNoEmptySegments, hs, hr, Bind.bind, Except.bind, pure, Except.pure, NewSubnetID]

/-- C1 witness: the round-trip at a concrete identifier. -/
theorem c1_subnet_id_roundtrip_witness :
    ("12345678-1234-9876-4563-123456789012" ≠ "" ∧
      '/' ∉ "12345678-1234-9876-4563-123456789012".data) ∧
    ParseSubnetID ((NewSubnetID "12345678-1234-9876-4563-123456789012" "resGroup1"
        "accTestVNet1" "accTestSubnet1").ID)
      = .ok (NewSubnetID "12345678-1234-9876-4563-123456789012" "resGroup1"
          "accTestVNet1" "accTestSubnet1") :=
  ⟨⟨by decide, by decide⟩,
    c1_subnet_id_roundtrip "12345678-1234-9876-4563-123456789012" "resGroup1"
      "accTestVNet1" "accTestSubnet1" (by decide) (by decide) (by decide) (by decide)
      (by decide) (by decide) (by decide) (by decide)⟩

/-- C6 counterexample: recasing a segment key of an accepted identifier is
not always accepted again.  The canonical subnet identifier parses, but
after recasing only the `virtualNetworks` segment key to `VIRTUALNETWORKS`
the strict parser `ParseSubnetID` rejects the string (matching the
repository's own ID tests, which expect fully upper-cased identifiers to be
errors). -/
theorem c6_key_casing_counterexample :
    (ParseSubnetID "/subscriptions/sub1/resourceGroups/rg1/providers/Microsoft.Network/virtualNetworks/vnet1/subnets/snet1").toOption
      = some (NewSubnetID "sub1" "rg1" "vnet1" "snet1") ∧
    (ParseSubnetID "/subscriptions/sub1/resourceGroups/rg1/providers/Microsoft.Network/VIRTUALNETWORKS/vnet1/subnets/snet1").toOption
      = none := by
  exact ⟨by decide, by decide⟩

/-- C6 (amended): it is the insensitive parser variant
`subnetIDInsensitively` that matches the `virtualNetworks` and `subnets`
segment keys case-insensitively: for every recasing of those two keys it
accepts the identifier and produces the same field values, with value
casing preserved; the strict `ParseSubnetID` requires the canonical key
casing. -/
theorem c6_insensitive_parse_recased_keys (s r v n k1 k2 : String)
    (hs : s ≠ "") (hr : r ≠ "") (hv : v ≠ "") (hn : n ≠ "") (hk1 : k1 ≠ "") (hk2 : k2 ≠ "")
    (hs2 : '/' ∉ s.data) (hr2 : '/' ∉ r.data) (hv2 : '/' ∉ v.data) (hn2 : '/' ∉ n.data)
    (hk12 : '/' ∉ k1.data) (hk22 : '/' ∉ k2.data)
    (hf1 : eqFold k1 "virtualNetworks" = true) (hf2 : eqFold k2 "subnets" = true) :
    subnetIDInsensitively (subnetIDStringWithKeys k1 k2 s r v n)
      = .ok (NewSubnetID s r v n) := by
  have h1 : "/subscriptions/".data = '/' :: ("subscriptions".data ++ ['/']) := rfl
  have h2 : "/resourceGroups/".data = '/' :: ("resourceGroups".data ++ ['/']) := rfl
  have h3 : "/providers/Microsoft.Network/".data
      = '/' :: ("providers".data ++ '/' :: ("Microsoft.Network".data ++ ['/'])) := rfl
  have h4 : "/".data = ['/'] := rfl
  have hdata : (subnetIDStringWithKeys k1 k2 s r v n).data
      = '/' :: ("subscriptions".data ++ '/' :: (s.data ++ '/' :: ("resourceGroups".data ++ '/' ::
          (r.data ++ '/' :: ("providers".data ++ '/' :: ("Microsoft.Network".data ++ '/' ::
          (k1.data ++ '/' :: (v.data ++ '/' :: (k2.data ++ '/' :: n.data))))))))) := by
    simp [subnetIDStringWithKeys, string_data_append, h1, h2, h3, h4, List.append_assoc]
  have hsegs : ((trimLeadingSlash (subnetIDStringWithKeys k1 k2 s r v n).data).splitOn '/')
      = ["subscriptions".data, s.data, "resourceGroups".data, r.data, "providers".data,
          "Microsoft.Network".data, k1.data, v.data, k2.data, n.data] := by
    rw [hdata, trimLeadingSlash_cons]
    rw [splitOn_sep_append _ _ (by decide)]
    rw [splitOn_sep_append _ _ hs2]
    rw [splitOn_sep_append _ _ (by decide)]
    rw [splitOn_sep_append _ _ hr2]
    rw [splitOn_sep_append _ _ (by decide)]
    rw [splitOn_sep_append _ _ (by decide)]
    rw [splitOn_sep_append _ _ hk12]
    rw [splitOn_sep_append _ _ hv2]
    rw [splitOn_sep_append _ _ hk22]
    rw [splitOn_single _ hn2]
  have hpairs : toPairs ["subscriptions".data, s.data, "resourceGroups".data, r.data,
      "providers".data, "Microsoft.Network".data, k1.data, v.data, k2.data, n.data]
      = .ok [("subscriptions", s), ("resourceGroups", r), ("providers", "Microsoft.Network"),
          (k1, v), (k2, n)] := by
    simp [toPairs, data_ne_nil hs, data_ne_nil hr, data_ne_nil hv, data_ne_nil hn,
      data_ne_nil hk1, data_ne_nil hk2, mk_data, Except.map]
  have ef1 : eqFold "subscriptions" "subscriptions" = true := by decide
  have ef2 : eqFold "resourceGroups" "resourceGroups" = true := by decide
  have ef3 : eqFold "providers" "providers" = true := by decide
  unfold subnetIDInsensitively ParseAzureResourceID
  rw [hsegs, hpairs]
  simp [extractFirstFold, ef1, ef2, ef3, findKeyCasing, hf1, hf2, PopSegment,
    extractFirstExact, ValidateNoEmptySegments, hs, hr, Bind.bind, Except.bind, pure,
    Except.pure, NewSubnetID]

/-- C6 witness: the insensitive parser at fully upper-cased collection
keys, with value casing preserved. -/
theorem c6_insensitive_parse_recased_keys_witness :
    (eqFold "VIRTUALNETWORKS" "virtualNetworks" = true ∧
      eqFold "SUBNETS" "subnets" = true) ∧
    subnetIDInsensitively
        (subnetIDStringWithKeys "VIRTUALNETWORKS" "SUBNETS" "sub1" "rg1" "vNet1" "sNet1")
      = .ok (NewSubnetID "sub1" "rg1" "vNet1" "sNet1") :=
  ⟨⟨by decide, by decide⟩,
    c6_insensitive_parse_recased_keys "sub1" "rg1" "vNet1" "sNet1" "VIRTUALNETWORKS" "SUBNETS"
      (by decide) (by decide) (by decide) (by decide) (by decide) (by decide)
      (by decide) (by decide) (by decide) (by decide) (by decide) (by decide)
      (by decide) (by decide)⟩

/-! ### Claim theorems for the read and create cycles -/

/-- C4: when the `Get` of a read cycle errors with an HTTP 404 response,
both modelled read functions clear the persisted identifier (set it to the
empty string) and return success, not an error. -/
theorem c4_read_not_found_clears_id :
    (∀ (d : ResourceData) (body : Subnet) (e : String),
      (ParseAzureResourceID d.id).toOption ≠ none →
      body.Response.statusCode = 404 →
      resourceArmSubnetRead d (body, some e) = .ok { d with id := "" }) ∧
    (∀ (d : ResourceData) (body : PublicIPAddress) (e : String),
      (ParseAzureResourceID d.id).toOption ≠ none →
      body.Response.statusCode = 404 →
      resourceArmPublicIpRead d (body, some e) = .ok { d with id := "" }) := by
  constructor
  · intro d body e hparse h404
    unfold resourceArmSubnetRead
    match hp : ParseAzureResourceID d.id with
    | .error msg => rw [hp] at hparse; simp [Except.toOption] at hparse
    | .ok rid => simp [responseWasNotFound, h404]
  · intro d body e hparse h404
    unfold resourceArmPublicIpRead
    match hp : ParseAzureResourceID d.id with
    | .error msg => rw [hp] at hparse; simp [Except.toOption] at hparse
    | .ok rid => simp [responseWasNotFound, h404]

/-- C4 witness: a concrete read cycle on a parseable persisted identifier
whose `Get` returns a 404. -/
theorem c4_read_not_found_clears_id_witness :
    ((ParseAzureResourceID "/subscriptions/sub1/resourceGroups/rg1/providers/Microsoft.Network/virtualNetworks/vnet1/subnets/snet1").toOption ≠ none ∧
      (404 : Nat) = 404) ∧
    resourceArmSubnetRead
        ⟨"/subscriptions/sub1/resourceGroups/rg1/providers/Microsoft.Network/virtualNetworks/vnet1/subnets/snet1", []⟩
        (⟨⟨404⟩, none⟩, some "remote says not found")
      = .ok ⟨"", []⟩ :=
  ⟨⟨by decide, rfl⟩,
    c4_read_not_found_clears_id.1
      ⟨"/subscriptions/sub1/resourceGroups/rg1/providers/Microsoft.Network/virtualNetworks/vnet1/subnets/snet1", []⟩
      ⟨⟨404⟩, none⟩ "remote says not found" (by decide) rfl⟩

/-- C5 counterexample: the create path does not proceed to `CreateKey`
*only* when the probe reports not-found.  In this environment the probe
`GetKey` succeeds with HTTP 200 (no error, not a 404) but its body carries
no key identifier, and the path still issues `CreateKey`. -/
theorem c5_probe_gating_counterexample :
    (probeOkNoKidEnv.getKeyProbe = (⟨⟨200⟩, none⟩, none) ∧
      responseWasNotFound ⟨200⟩ = false) ∧
    KVKeyCall.createKey ∈ (resourceArmKeyVaultKeyCreate ⟨"EC", none⟩ probeOkNoKidEnv).2 := by
  exact ⟨⟨rfl, rfl⟩, by decide⟩

/-- C5 (amended): each of the three cited create paths probes existence
first and fails fast with the import-as-exists error before issuing any
create call when the probe reports the remote object present.
Key-vault key: a probe returning an existing key identifier yields the
import-as-exists error with `CreateKey` never called, and whenever
`CreateKey` is called the probe reported no existing key identifier (the
path proceeds both on a not-found probe and in the degenerate case of a
success response carrying no key identifier).
Storage blob: a new resource whose probe response is not a 404 never
reaches the blob upload — an errored probe surfaces the error and a
successful probe yields the import-as-exists error — and whenever the
upload is issued the probe response was a 404 (the original not-found
gating, verbatim).
Subnet route-table association: a probed subnet already carrying a
route-table association with an ID yields the import-as-exists error with
no `CreateOrUpdate` call, and whenever `CreateOrUpdate` is issued the
probe succeeded and observed no such association.
In every path the probe is the first remote call of the trace. -/
theorem c5_create_probe_gating :
    ((∀ (cfg : KeyVaultKeyConfig) (env : KeyVaultKeyCreateEnv) (existing : KeyBundle)
      (gerr : Option String),
      env.vaultId = .ok () → (∃ u, env.baseUri = .ok u) →
      env.getKeyProbe = (existing, gerr) →
      probeFatal (existing, gerr) = false →
      kidPresent existing = true →
      resourceArmKeyVaultKeyCreate cfg env
        = (.importAsExists "azurerm_key_vault_key" (kidOf existing), [.getKey]) ∧
      (resourceArmKeyVaultKeyCreate cfg env).2.count .createKey = 0) ∧
    (∀ (cfg : KeyVaultKeyConfig) (env : KeyVaultKeyCreateEnv),
      KVKeyCall.createKey ∈ (resourceArmKeyVaultKeyCreate cfg env).2 →
      kidPresent env.getKeyProbe.1 = false ∧
      (resourceArmKeyVaultKeyCreate cfg env).2.head? = some .getKey)) ∧
    ((∀ (env : StorageBlobCreateEnv) (resp : Response) (gerr : Option String),
      env.findAccount = (some (), none) →
      env.blobsClient = .ok () →
      env.getProperties = (resp, gerr) →
      responseWasNotFound resp = false →
      BlobCall.create ∉ (storageBlobCreate true env).2 ∧
      (gerr = none →
        storageBlobCreate true env
          = (.importAsExists "azurestack_storage_blob" env.resourceId, [.getProperties]))) ∧
    (∀ (env : StorageBlobCreateEnv),
      BlobCall.create ∈ (storageBlobCreate true env).2 →
      responseWasNotFound env.getProperties.1 = true ∧
      (storageBlobCreate true env).2.head? = some .getProperties)) ∧
    ((∀ (sid rtid aid : String) (env : SubnetRouteTableAssociationCreateEnv)
      (subnet : SubnetWithID),
      (ParseSubnetID sid).toOption ≠ none →
      env.routeTableIdParse = .ok () →
      env.get = (subnet, none) →
      observedAssociationId subnet = some aid →
      resourceArmSubnetRouteTableAssociationCreate sid rtid env
        = (.importAsExists "azurestack_subnet_route_table_association" aid, [.get])) ∧
    (∀ (sid rtid : String) (env : SubnetRouteTableAssociationCreateEnv),
      (resourceArmSubnetRouteTableAssociationCreate sid rtid env).2.any isRTACreate = true →
      env.get.2 = none ∧ observedAssociationId env.get.1 = none ∧
      (resourceArmSubnetRouteTableAssociationCreate sid rtid env).2.head? = some .get)) := by
  refine ⟨⟨?_, ?_⟩, ⟨?_, ?_⟩, ⟨?_, ?_⟩⟩
  · intro cfg env existing gerr hv hbx hp hf hkid
    obtain ⟨u, hb⟩ := hbx
    constructor
    · simp [resourceArmKeyVaultKeyCreate, hv, hb, hp, hf, hkid]
    · simp [resourceArmKeyVaultKeyCreate, hv, hb, hp, hf, hkid, List.count_cons]
  · intro cfg env hmem
    rcases hv : env.vaultId with e | u
    · simp [resourceArmKeyVaultKeyCreate, hv] at hmem
    rcases hb : env.baseUri with e | u2
    · simp [resourceArmKeyVaultKeyCreate, hv, hb] at hmem
    rcases hp : env.getKeyProbe with ⟨existing, gerr⟩
    by_cases hf : probeFatal (existing, gerr) = true
    · simp [resourceArmKeyVaultKeyCreate, hv, hb, hp, hf] at hmem
    · by_cases hkid : kidPresent existing = true
      · simp [resourceArmKeyVaultKeyCreate, hv, hb, hp, hf, hkid] at hmem
      · refine ⟨by simp [hp]; simpa using hkid, ?_⟩
        by_cases hrsa : (cfg.key_type = "RSA" ∨ cfg.key_type = "RSA-HSM")
        · rcases hks : cfg.key_size with _ | sz
          · simp [resourceArmKeyVaultKeyCreate, hv, hb, hp, hf, hkid, hrsa, hks] at hmem
          · rcases hc : env.createKey with ⟨cr, cerr⟩
            rcases hg : env.getKeyRead with ⟨rd, rerr⟩
            rcases cerr with _ | ce <;> rcases rerr with _ | re <;>
              rcases hrdk : rd.Key with _ | k <;>
                simp [resourceArmKeyVaultKeyCreate, hv, hb, hp, hf, hkid, hrsa, hks, hc, hg, hrdk]
            all_goals cases hkk : k.Kid <;> simp [hkk]
        · rcases hc : env.createKey with ⟨cr, cerr⟩
          rcases hg : env.getKeyRead with ⟨rd, rerr⟩
          rcases cerr with _ | ce <;> rcases rerr with _ | re <;>
            rcases hrdk : rd.Key with _ | k <;>
              simp [resourceArmKeyVaultKeyCreate, hv, hb, hp, hf, hkid, hrsa, hc, hg, hrdk]
          all_goals cases hkk : k.Kid <;> simp [hkk]

  · intro env resp gerr hfa hbc hgp hnf
    constructor
    · cases gerr with
      | some e => simp [storageBlobCreate, hfa, hbc, hgp, hnf]
      | none => simp [storageBlobCreate, hfa, hbc, hgp, hnf]
    · intro hge
      subst hge
      simp [storageBlobCreate, hfa, hbc, hgp, hnf]
  · intro env hmem
    rcases hfa : env.findAccount with ⟨acct, aerr⟩
    cases aerr with
    | some ae => simp [storageBlobCreate, hfa] at hmem
    | none =>
      cases acct with
      | none => simp [storageBlobCreate, hfa] at hmem
      | some au =>
        rcases hbc : env.blobsClient with be | bu
        · simp [storageBlobCreate, hbc, hfa] at hmem
        · rcases hgp : env.getProperties with ⟨resp, gerr⟩
          by_cases hnf : responseWasNotFound resp = true
          · refine ⟨by simp [hgp]; exact hnf, ?_⟩
            cases gerr with
            | some e =>
              cases hcb : env.createBlob <;>
                simp [storageBlobCreate, hfa, hbc, hgp, hnf, hcb]
            | none =>
              cases hcb : env.createBlob <;>
                simp [storageBlobCreate, hfa, hbc, hgp, hnf, hcb]
          · exfalso
            cases gerr with
            | some e => simp [storageBlobCreate, hfa, hbc, hgp, hnf] at hmem
            | none => simp [storageBlobCreate, hfa, hbc, hgp, hnf] at hmem
  · intro sid rtid aid env subnet hps hrt hget hobs
    match hp : ParseSubnetID sid with
    | .error msg => rw [hp] at hps; simp [Except.toOption] at hps
    | .ok s =>
      simp [resourceArmSubnetRouteTableAssociationCreate, hp, hrt, hget, hobs]
  · intro sid rtid env hany
    match hp : ParseSubnetID sid with
    | .error msg =>
      simp [resourceArmSubnetRouteTableAssociationCreate, hp] at hany
    | .ok s =>
      rcases hrt : env.routeTableIdParse with re | ru
      · simp [resourceArmSubnetRouteTableAssociationCreate, hp, hrt] at hany
      · rcases hget : env.get with ⟨subnet, gerr⟩
        cases gerr with
        | some ge =>
          by_cases hnf : responseWasNotFound subnet.Response = true <;>
            simp [resourceArmSubnetRouteTableAssociationCreate, hp, hrt, hget, hnf,
              isRTACreate] at hany
        | none =>
          rcases hobs : observedAssociationId subnet with _ | aid
          · refine ⟨by simp [hget], by simp [hget, hobs], ?_⟩
            rcases hcu : env.createOrUpdate with _ | ce
            · rcases hwf : env.waitForCompletion with _ | we
              · rcases hga : env.getAfter with ⟨read, rerr⟩
                rcases rerr with _ | re
                · rcases hri : read.ID with _ | ri <;>
                    simp [resourceArmSubnetRouteTableAssociationCreate, hp, hrt, hget, hobs,
                      hcu, hwf, hga, hri]
                · simp [resourceArmSubnetRouteTableAssociationCreate, hp, hrt, hget, hobs,
                    hcu, hwf, hga]
              · simp [resourceArmSubnetRouteTableAssociationCreate, hp, hrt, hget, hobs,
                  hcu, hwf]
            · simp [resourceArmSubnetRouteTableAssociationCreate, hp, hrt, hget, hobs, hcu]
          · simp [resourceArmSubnetRouteTableAssociationCreate, hp, hrt, hget, hobs,
              isRTACreate] at hany

/-- C5 witness: in environments whose probe reports the object present,
each of the three create paths returns its import-as-exists error without
issuing a create call. -/
theorem c5_create_probe_gating_witness :
    (probeFatal (⟨⟨200⟩, some ⟨some "https://vault.example/keys/k/1"⟩⟩, none) = false ∧
      kidPresent ⟨⟨200⟩, some ⟨some "https://vault.example/keys/k/1"⟩⟩ = true ∧
      responseWasNotFound ⟨200⟩ = false ∧
      observedAssociationId ⟨⟨200⟩, some "subnetResourceId1", some ⟨none, none, some ⟨some "rt1"⟩, none⟩⟩
        = some "subnetResourceId1") ∧
    resourceArmKeyVaultKeyCreate ⟨"EC", none⟩ probeExistingKeyEnv
      = (.importAsExists "azurerm_key_vault_key" "https://vault.example/keys/k/1", [.getKey]) ∧
    (resourceArmKeyVaultKeyCreate ⟨"EC", none⟩ probeExistingKeyEnv).2.count .createKey = 0 ∧
    storageBlobCreate true blobExistingEnv
      = (.importAsExists "azurestack_storage_blob"
          "https://acct.blob.example/container1/blob1", [.getProperties]) ∧
    resourceArmSubnetRouteTableAssociationCreate
        "/subscriptions/sub1/resourceGroups/rg1/providers/Microsoft.Network/virtualNetworks/vnet1/subnets/snet1"
        "rtid1" rtaExistingEnv
      = (.importAsExists "azurestack_subnet_route_table_association" "subnetResourceId1",
          [.get]) :=
  ⟨⟨rfl, rfl, rfl, rfl⟩,
    ((c5_create_probe_gating.1.1 ⟨"EC", none⟩ probeExistingKeyEnv
        ⟨⟨200⟩, some ⟨some "https://vault.example/keys/k/1"⟩⟩ none rfl
        ⟨"https://vault.example", rfl⟩ rfl rfl rfl).1),
    ((c5_create_probe_gating.1.1 ⟨"EC", none⟩ probeExistingKeyEnv
        ⟨⟨200⟩, some ⟨some "https://vault.example/keys/k/1"⟩⟩ none rfl
        ⟨"https://vault.example", rfl⟩ rfl rfl rfl).2),
    ((c5_create_probe_gating.2.1.1 blobExistingEnv ⟨200⟩ none rfl rfl rfl rfl).2 rfl),
    (c5_create_probe_gating.2.2.1
      "/subscriptions/sub1/resourceGroups/rg1/providers/Microsoft.Network/virtualNetworks/vnet1/subnets/snet1"
      "rtid1" "subnetResourceId1" rtaExistingEnv
      ⟨⟨200⟩, some "subnetResourceId1", some ⟨none, none, some ⟨some "rt1"⟩, none⟩⟩
      (by decide) rfl rfl rfl)⟩

/-- C10: the patch body the delete path sends to `CreateOrUpdate` replaces
the targeted IP configuration's pool memberships with exactly the observed
entries whose ID is present and differs from the association's pool ID
(order preserved, nil-ID entries dropped), while every other configuration
and every other field of the read network-interface body passes through
unchanged. -/
theorem c10_delete_patch_body_frame :
    ∀ (read : Interface) (nicProps : InterfacePropertiesFormat)
      (configs : List InterfaceIPConfiguration) (config : InterfaceIPConfiguration)
      (props : InterfaceIPConfigurationPropertiesFormat) (pools : List BackendAddressPool)
      (name poolId : String),
      read.InterfacePropertiesFormat = some nicProps →
      nicProps.IPConfigurations = some configs →
      FindNetworkInterfaceIPConfiguration (some configs) name = some config →
      config.InterfaceIPConfigurationPropertiesFormat = some props →
      props.LoadBalancerBackendAddressPools = some pools →
      ∃ newPools : List BackendAddressPool,
        backendAddressPoolAssociationDeletePatchBody read name poolId
          = .ok
              ({ read with
                  InterfacePropertiesFormat :=
                    some
                      ({ nicProps with
                          IPConfigurations :=
                            some
                              (configs.map fun c =>
                                if c.Name == config.Name then
                                  withPools config props newPools
                                else c) }) }) ∧
        newPools.Sublist pools ∧
        (∀ pool, pool ∈ newPools ↔
          pool ∈ pools ∧ pool.ID ≠ none ∧ pool.ID ≠ some poolId) := by
  intro read nicProps configs config props pools name poolId hrp hip hfind hcp hpools
  refine ⟨pools.filter (fun pool =>
    match pool.ID with
    | none => false
    | some pid => pid != poolId), ?_, ?_, ?_⟩
  · simp [backendAddressPoolAssociationDeletePatchBody, hrp, hip, hfind, hcp, hpools,
      updateNetworkInterfaceIPConfiguration, withPools]
  · exact List.filter_sublist pools
  · intro pool
    constructor
    · intro hm
      have hmf := List.mem_filter.mp hm
      rcases hmf with ⟨hmem, hcond⟩
      refine ⟨hmem, ?_, ?_⟩
      · intro hnone; rw [hnone] at hcond; simp at hcond
      · intro hsome; rw [hsome] at hcond; simp at hcond
    · intro hin
      rcases hin with ⟨hmem, hnn, hns⟩
      refine List.mem_filter.mpr ⟨hmem, ?_⟩
      rcases hid : pool.ID with _ | pid
      · exact absurd hid hnn
      · simp
        intro he
        exact hns (by rw [hid, he])

/-- C10 witness: a concrete interface body with one nil-ID pool, the
association's pool, and an unrelated pool; the patch keeps exactly the
unrelated pool and everything else passes through. -/
theorem c10_delete_patch_body_frame_witness :
    FindNetworkInterfaceIPConfiguration
        (some [⟨some "ipconfig1",
          some ⟨some [⟨none, "p0"⟩, ⟨some "pool1", "p1"⟩, ⟨some "pool2", "p2"⟩], "pr"⟩, "c1"⟩,
          ⟨some "other", none, "c2"⟩]) "ipconfig1"
      = some ⟨some "ipconfig1",
          some ⟨some [⟨none, "p0"⟩, ⟨some "pool1", "p1"⟩, ⟨some "pool2", "p2"⟩], "pr"⟩, "c1"⟩ ∧
    ∃ newPools : List BackendAddressPool,
      backendAddressPoolAssociationDeletePatchBody
          ⟨some ⟨some [⟨some "ipconfig1",
            some ⟨some [⟨none, "p0"⟩, ⟨some "pool1", "p1"⟩, ⟨some "pool2", "p2"⟩], "pr"⟩, "c1"⟩,
            ⟨some "other", none, "c2"⟩], "nicRest"⟩, "ifaceRest"⟩ "ipconfig1" "pool1"
        = .ok
            ({ (⟨some ⟨some [⟨some "ipconfig1",
                some ⟨some [⟨none, "p0"⟩, ⟨some "pool1", "p1"⟩, ⟨some "pool2", "p2"⟩], "pr"⟩, "c1"⟩,
                ⟨some "other", none, "c2"⟩], "nicRest"⟩, "ifaceRest"⟩ : Interface) with
                InterfacePropertiesFormat :=
                  some
                    ({ (⟨some [⟨some "ipconfig1",
                        some ⟨some [⟨none, "p0"⟩, ⟨some "pool1", "p1"⟩, ⟨some "pool2", "p2"⟩], "pr"⟩, "c1"⟩,
                        ⟨some "other", none, "c2"⟩], "nicRest"⟩ : InterfacePropertiesFormat) with
                        IPConfigurations :=
                          some
                            ([⟨some "ipconfig1",
                                some ⟨some [⟨none, "p0"⟩, ⟨some "pool1", "p1"⟩, ⟨some "pool2", "p2"⟩], "pr"⟩, "c1"⟩,
                                ⟨some "other", none, "c2"⟩].map fun c =>
                              if c.Name == (⟨some "ipconfig1",
                                  some ⟨some [⟨none, "p0"⟩, ⟨some "pool1", "p1"⟩, ⟨some "pool2", "p2"⟩], "pr"⟩,
                                  "c1"⟩ : InterfaceIPConfiguration).Name then
                                withPools
                                  ⟨some "ipconfig1",
                                    some ⟨some [⟨none, "p0"⟩, ⟨some "pool1", "p1"⟩, ⟨some "pool2", "p2"⟩], "pr"⟩, "c1"⟩
                                  ⟨some [⟨none, "p0"⟩, ⟨some "pool1", "p1"⟩, ⟨some "pool2", "p2"⟩], "pr"⟩
                                  newPools
                              else c) }) }) ∧
      newPools.Sublist [⟨none, "p0"⟩, ⟨some "pool1", "p1"⟩, ⟨some "pool2", "p2"⟩] ∧
      (∀ pool, pool ∈ newPools ↔
        pool ∈ ([⟨none, "p0"⟩, ⟨some "pool1", "p1"⟩, ⟨some "pool2", "p2"⟩] : List BackendAddressPool) ∧
          pool.ID ≠ none ∧ pool.ID ≠ some "pool1") :=
  ⟨by decide,
    c10_delete_patch_body_frame
      ⟨some ⟨some [⟨some "ipconfig1",
        some ⟨some [⟨none, "p0"⟩, ⟨some "pool1", "p1"⟩, ⟨some "pool2", "p2"⟩], "pr"⟩, "c1"⟩,
        ⟨some "other", none, "c2"⟩], "nicRest"⟩, "ifaceRest"⟩
      ⟨some [⟨some "ipconfig1",
        some ⟨some [⟨none, "p0"⟩, ⟨some "pool1", "p1"⟩, ⟨some "pool2", "p2"⟩], "pr"⟩, "c1"⟩,
        ⟨some "other", none, "c2"⟩], "nicRest"⟩
      [⟨some "ipconfig1",
        some ⟨some [⟨none, "p0"⟩, ⟨some "pool1", "p1"⟩, ⟨some "pool2", "p2"⟩], "pr"⟩, "c1"⟩,
        ⟨some "other", none, "c2"⟩]
      ⟨some "ipconfig1",
        some ⟨some [⟨none, "p0"⟩, ⟨some "pool1", "p1"⟩, ⟨some "pool2", "p2"⟩], "pr"⟩, "c1"⟩
      ⟨some [⟨none, "p0"⟩, ⟨some "pool1", "p1"⟩, ⟨some "pool2", "p2"⟩], "pr"⟩
      [⟨none, "p0"⟩, ⟨some "pool1", "p1"⟩, ⟨some "pool2", "p2"⟩]
      "ipconfig1" "pool1" rfl rfl (by decide) rfl rfl⟩

end AzureStack
